import Mathlib

/-
Verification of the eye-tracking gesture core (src/eye_tracker.py).

The embedding mirrors the Python class `EyeTracker`:
  * `GestureType` is the gesture enumeration.
  * `TrackerState` holds the mutable fields of an `EyeTracker` instance that
    the gesture logic reads and writes, together with the configuration
    fields (`ear_threshold`, `wink_duration`, `gaze_history_max`) and the
    frame dimensions.
  * `detect_gesture` is `EyeTracker.detect_gesture` in explicit
    state-passing style: the Python method mutates `self` and returns a
    gesture, so the Lean function returns the gesture together with the
    updated state.  The two timer-update `if` statements are factored into
    `update_left_timer` / `update_right_timer`; Python's early `return`
    statements are mirrored by the branch structure.
  * `calculate_ear` / `calculate_gaze` are the two pure per-frame metric
    functions.  Python floats are modelled as real numbers in
    `calculate_ear` (which takes a square root) and as rationals elsewhere
    (every branch condition of the gesture logic is an order comparison,
    exact on ℚ).
  * `update_gaze_history` is the gaze-history update step of
    `EyeTracker.process_frame` (append, then pop the oldest entry when the
    length exceeds `gaze_history_max`); the rest of `process_frame` is
    camera/MediaPipe I/O outside the algorithmic core.
  * `reset_metrics` is `EyeTracker.reset_metrics`.

Python list indexing `xs[i]` is partial; it is modelled by `List.getD` with
an arbitrary default.  Every landmark access in the source is guarded by the
`len(landmarks) < max(eye_indices) + 1` check, so the default is unreachable
whenever the guard passes, and the eye-index lists at every call site have
the six (respectively sixteen) entries the functions read.
-/

/-- Eye gesture types (Python enum `GestureType`). -/
inductive GestureType where
  | NONE
  | LEFT_WINK
  | RIGHT_WINK
  | DOUBLE_BLINK
  | SUSTAINED_GAZE
deriving DecidableEq

/-- The per-instance state of `EyeTracker`: configuration set in `__init__`
(`ear_threshold`, `wink_duration`), gesture-detection state
(`left_eye_closed_time`, `right_eye_closed_time`, `last_blink_time`,
`blink_count`), the gaze history with its capacity, and the frame
dimensions.  A timer value of `0` plays the role of "unset", exactly as in
the source. -/
structure TrackerState where
  ear_threshold : ℚ
  wink_duration : ℚ × ℚ
  left_eye_closed_time : ℚ
  right_eye_closed_time : ℚ
  last_blink_time : ℚ
  blink_count : ℤ
  gaze_history : List (ℚ × ℚ)
  gaze_history_max : ℕ
  frame_width : ℤ
  frame_height : ℤ
deriving DecidableEq

/-- `EyeTracker.__init__`: gesture state zeroed, empty gaze history with
capacity 30, frame dimensions not yet known. -/
def initTracker (ear_threshold : ℚ) (wink_duration : ℚ × ℚ) : TrackerState :=
  { ear_threshold := ear_threshold
    wink_duration := wink_duration
    left_eye_closed_time := 0
    right_eye_closed_time := 0
    last_blink_time := 0
    blink_count := 0
    gaze_history := []
    gaze_history_max := 30
    frame_width := 0
    frame_height := 0 }

/-- A tracker constructed with the default arguments
`ear_threshold=0.25`, `wink_duration=(0.2, 0.5)`. -/
def defaultTracker : TrackerState := initTracker 0.25 (0.2, 0.5)

/-- The left-eye timer update of `detect_gesture` (the first `if` statement
of the "Update eye closed times" block): when the eye is closed and the
timer is unset (`0`), start it at `current_time`; when the eye is open,
clear it to `0`. -/
def update_left_timer (s : TrackerState) (left_closed : Bool)
    (current_time : ℚ) : TrackerState :=
  if left_closed then
    (if s.left_eye_closed_time = 0 then
      { s with left_eye_closed_time := current_time } else s)
  else { s with left_eye_closed_time := 0 }

/-- The right-eye timer update of `detect_gesture`, symmetric to
`update_left_timer`. -/
def update_right_timer (s : TrackerState) (right_closed : Bool)
    (current_time : ℚ) : TrackerState :=
  if right_closed then
    (if s.right_eye_closed_time = 0 then
      { s with right_eye_closed_time := current_time } else s)
  else { s with right_eye_closed_time := 0 }

/-- `EyeTracker.detect_gesture(left_ear, right_ear, current_time)`.
`left_closed`/`right_closed` are the booleans computed at entry; `s2` is
`self` after the two timer updates.  In the both-eyes-closed branch the
Python code `return`s `DOUBLE_BLINK` *before* reaching
`self.last_blink_time = current_time`, mirrored here by the
`DOUBLE_BLINK` pair not updating `last_blink_time`. -/
def detect_gesture (s : TrackerState) (left_ear right_ear current_time : ℚ) :
    GestureType × TrackerState :=
  let left_closed : Bool := decide (left_ear < s.ear_threshold)
  let right_closed : Bool := decide (right_ear < s.ear_threshold)
  let s2 := update_right_timer (update_left_timer s left_closed current_time)
    right_closed current_time
  if left_closed && !right_closed then
    (if 0 < s2.left_eye_closed_time then
      (if s.wink_duration.1 ≤ current_time - s2.left_eye_closed_time ∧
          current_time - s2.left_eye_closed_time ≤ s.wink_duration.2 then
        (GestureType.LEFT_WINK, s2)
      else (GestureType.NONE, s2))
    else (GestureType.NONE, s2))
  else if right_closed && !left_closed then
    (if 0 < s2.right_eye_closed_time then
      (if s.wink_duration.1 ≤ current_time - s2.right_eye_closed_time ∧
          current_time - s2.right_eye_closed_time ≤ s.wink_duration.2 then
        (GestureType.RIGHT_WINK, s2)
      else (GestureType.NONE, s2))
    else (GestureType.NONE, s2))
  else if left_closed && right_closed then
    (if current_time - s2.last_blink_time < 0.5 then
      (if s2.blink_count + 1 ≥ 2 then
        (GestureType.DOUBLE_BLINK, { s2 with blink_count := 0 })
      else
        (GestureType.NONE,
          { s2 with blink_count := s2.blink_count + 1,
                    last_blink_time := current_time }))
    else
      (GestureType.NONE,
        { s2 with blink_count := 1, last_blink_time := current_time }))
  else (GestureType.NONE, s2)

/-- Gestures produced by calling `detect_gesture` once per entry of `calls`
(each entry is `(left_ear, right_ear, current_time)`), threading the state
through the calls. -/
def run_gestures (s : TrackerState) (calls : List (ℚ × ℚ × ℚ)) :
    List GestureType :=
  match calls with
  | [] => []
  | (le, re, t) :: rest =>
      let r := detect_gesture s le re t
      r.1 :: run_gestures r.2 rest

/-- State reached after calling `detect_gesture` once per entry of
`calls`. -/
def run_state (s : TrackerState) (calls : List (ℚ × ℚ × ℚ)) : TrackerState :=
  match calls with
  | [] => s
  | (le, re, t) :: rest => run_state (detect_gesture s le re t).2 rest

/-- `EyeTracker.reset_metrics`: zero the closure timers, the blink reference
timestamp and the blink counter, and clear the gaze history. -/
def reset_metrics (s : TrackerState) : TrackerState :=
  { s with left_eye_closed_time := 0
           right_eye_closed_time := 0
           last_blink_time := 0
           blink_count := 0
           gaze_history := [] }

/-- The gaze-history update step of `EyeTracker.process_frame`:
`self.gaze_history.append(combined_gaze)` followed by
`self.gaze_history.pop(0)` when the length exceeds `self.gaze_history_max`
(which `__init__` fixes at 30). -/
def update_gaze_history (gaze_history_max : ℕ) (gaze_history : List (ℚ × ℚ))
    (combined_gaze : ℚ × ℚ) : List (ℚ × ℚ) :=
  let h := gaze_history ++ [combined_gaze]
  if h.length > gaze_history_max then h.tail else h

/-- `np.linalg.norm` of the difference of two 2D integer landmark points:
the Euclidean distance in pixel space. -/
noncomputable def euclid_norm (p q : ℤ × ℤ) : ℝ :=
  Real.sqrt (((p.1 - q.1 : ℤ) : ℝ) ^ 2 + ((p.2 - q.2 : ℤ) : ℝ) ^ 2)

/-- `EyeTracker.calculate_ear(landmarks, eye_indices)`.  Returns `0.0` when
the landmark list is shorter than `max(eye_indices) + 1` or when the
horizontal distance is zero; otherwise `(vertical_1 + vertical_2) /
(2 * horizontal)`. -/
noncomputable def calculate_ear (landmarks : List (ℤ × ℤ))
    (eye_indices : List ℕ) : ℝ :=
  if landmarks.length < eye_indices.foldr max 0 + 1 then 0
  else
    let p1 := landmarks.getD (eye_indices.getD 0 0) (0, 0)
    let p2 := landmarks.getD (eye_indices.getD 1 0) (0, 0)
    let p3 := landmarks.getD (eye_indices.getD 2 0) (0, 0)
    let p4 := landmarks.getD (eye_indices.getD 3 0) (0, 0)
    let p5 := landmarks.getD (eye_indices.getD 4 0) (0, 0)
    let p6 := landmarks.getD (eye_indices.getD 5 0) (0, 0)
    let vertical_1 := euclid_norm p2 p6
    let vertical_2 := euclid_norm p3 p5
    let horizontal := euclid_norm p1 p4
    if horizontal = 0 then 0
    else (vertical_1 + vertical_2) / (2 * horizontal)

/-- `EyeTracker.calculate_gaze(landmarks, eye_indices)`, with the
`self.frame_width` / `self.frame_height` fields passed explicitly.  The
source also reads `landmarks[eye_indices[0]]` into an `eye_center` variable
it never uses afterwards, mirrored by the underscore binding. -/
def calculate_gaze (frame_width frame_height : ℤ) (landmarks : List (ℤ × ℤ))
    (eye_indices : List ℕ) : ℚ × ℚ :=
  if landmarks.length < eye_indices.foldr max 0 + 1 then (0.5, 0.5)
  else
    let _eye_center := landmarks.getD (eye_indices.getD 0 0) (0, 0)
    let iris_center := landmarks.getD (eye_indices.getD 1 0) (0, 0)
    if 0 < frame_width ∧ 0 < frame_height then
      ((iris_center.1 : ℚ) / (frame_width : ℚ),
       (iris_center.2 : ℚ) / (frame_height : ℚ))
    else (0.5, 0.5)

/-- `update_left_timer` does not touch the threshold. -/
@[simp] theorem update_left_timer_ear_threshold (s : TrackerState) (b : Bool)
    (t : ℚ) : (update_left_timer s b t).ear_threshold = s.ear_threshold := by
  unfold update_left_timer; split_ifs <;> rfl

/-- `update_left_timer` does not touch the wink-duration window. -/
@[simp] theorem update_left_timer_wink (s : TrackerState) (b : Bool) (t : ℚ) :
    (update_left_timer s b t).wink_duration = s.wink_duration := by
  unfold update_left_timer; split_ifs <;> rfl

/-- `update_left_timer` does not touch the right timer. -/
@[simp] theorem update_left_timer_right (s : TrackerState) (b : Bool) (t : ℚ) :
    (update_left_timer s b t).right_eye_closed_time =
      s.right_eye_closed_time := by
  unfold update_left_timer; split_ifs <;> rfl

/-- `update_left_timer` does not touch the blink reference timestamp. -/
@[simp] theorem update_left_timer_last (s : TrackerState) (b : Bool) (t : ℚ) :
    (update_left_timer s b t).last_blink_time = s.last_blink_time := by
  unfold update_left_timer; split_ifs <;> rfl

/-- `update_left_timer` does not touch the blink counter. -/
@[simp] theorem update_left_timer_count (s : TrackerState) (b : Bool) (t : ℚ) :
    (update_left_timer s b t).blink_count = s.blink_count := by
  unfold update_left_timer; split_ifs <;> rfl

/-- Value of the left timer after `update_left_timer`. -/
theorem update_left_timer_left (s : TrackerState) (b : Bool) (t : ℚ) :
    (update_left_timer s b t).left_eye_closed_time =
      if b then (if s.left_eye_closed_time = 0 then t
        else s.left_eye_closed_time) else 0 := by
  unfold update_left_timer; split_ifs <;> simp_all

/-- `update_right_timer` does not touch the threshold. -/
@[simp] theorem update_right_timer_ear_threshold (s : TrackerState) (b : Bool)
    (t : ℚ) : (update_right_timer s b t).ear_threshold = s.ear_threshold := by
  unfold update_right_timer; split_ifs <;> rfl

/-- `update_right_timer` does not touch the wink-duration window. -/
@[simp] theorem update_right_timer_wink (s : TrackerState) (b : Bool) (t : ℚ) :
    (update_right_timer s b t).wink_duration = s.wink_duration := by
  unfold update_right_timer; split_ifs <;> rfl

/-- `update_right_timer` does not touch the left timer. -/
@[simp] theorem update_right_timer_left (s : TrackerState) (b : Bool) (t : ℚ) :
    (update_right_timer s b t).left_eye_closed_time =
      s.left_eye_closed_time := by
  unfold update_right_timer; split_ifs <;> rfl

/-- `update_right_timer` does not touch the blink reference timestamp. -/
@[simp] theorem update_right_timer_last (s : TrackerState) (b : Bool) (t : ℚ) :
    (update_right_timer s b t).last_blink_time = s.last_blink_time := by
  unfold update_right_timer; split_ifs <;> rfl

/-- `update_right_timer` does not touch the blink counter. -/
@[simp] theorem update_right_timer_count (s : TrackerState) (b : Bool)
    (t : ℚ) : (update_right_timer s b t).blink_count = s.blink_count := by
  unfold update_right_timer; split_ifs <;> rfl

/-- Value of the right timer after `update_right_timer`. -/
theorem update_right_timer_right (s : TrackerState) (b : Bool) (t : ℚ) :
    (update_right_timer s b t).right_eye_closed_time =
      if b then (if s.right_eye_closed_time = 0 then t
        else s.right_eye_closed_time) else 0 := by
  unfold update_right_timer; split_ifs <;> simp_all

/-- `detect_gesture` never changes the configured threshold. -/
@[simp] theorem detect_gesture_ear_threshold (s : TrackerState) (l r t : ℚ) :
    (detect_gesture s l r t).2.ear_threshold = s.ear_threshold := by
  simp only [detect_gesture]
  split_ifs <;> simp

/-- The left timer after a `detect_gesture` call is exactly the value the
timer-update phase computes: started at `current_time` when the eye is
closed and the timer was unset, kept when closed and running, cleared when
the eye is open. -/
theorem detect_gesture_left_timer (s : TrackerState) (l r t : ℚ) :
    (detect_gesture s l r t).2.left_eye_closed_time =
      if l < s.ear_threshold then
        (if s.left_eye_closed_time = 0 then t else s.left_eye_closed_time)
      else 0 := by
  simp only [detect_gesture]
  split_ifs <;>
    simp_all [update_right_timer_left, update_left_timer_left]

/-- The right timer after a `detect_gesture` call, symmetric to
`detect_gesture_left_timer`. -/
theorem detect_gesture_right_timer (s : TrackerState) (l r t : ℚ) :
    (detect_gesture s l r t).2.right_eye_closed_time =
      if r < s.ear_threshold then
        (if s.right_eye_closed_time = 0 then t else s.right_eye_closed_time)
      else 0 := by
  simp only [detect_gesture]
  split_ifs <;>
    simp_all [update_right_timer_right, update_left_timer_right]

/-- Gesture returned by a both-eyes-closed `detect_gesture` call: a
`DOUBLE_BLINK` exactly when the call is within the 0.5 s window of
`last_blink_time` and the incremented counter reaches 2. -/
theorem detect_gesture_both_fst (s : TrackerState) (l r t : ℚ)
    (hl : l < s.ear_threshold) (hr : r < s.ear_threshold) :
    (detect_gesture s l r t).1 =
      if t - s.last_blink_time < 0.5 ∧ 2 ≤ s.blink_count + 1 then
        GestureType.DOUBLE_BLINK
      else GestureType.NONE := by
  simp only [detect_gesture, decide_eq_true hl, decide_eq_true hr,
    Bool.and_not_self, Bool.not_true, Bool.and_false, Bool.false_and,
    Bool.and_self, if_false, if_true, Bool.false_eq_true, ite_false,
    ite_true]
  split_ifs <;> simp_all

/-- Blink counter after a both-eyes-closed `detect_gesture` call. -/
theorem detect_gesture_both_count (s : TrackerState) (l r t : ℚ)
    (hl : l < s.ear_threshold) (hr : r < s.ear_threshold) :
    (detect_gesture s l r t).2.blink_count =
      if t - s.last_blink_time < 0.5 then
        (if 2 ≤ s.blink_count + 1 then 0 else s.blink_count + 1)
      else 1 := by
  simp only [detect_gesture, decide_eq_true hl, decide_eq_true hr,
    Bool.and_not_self, Bool.not_true, Bool.and_false, Bool.false_and,
    Bool.and_self, if_false, if_true, Bool.false_eq_true, ite_false,
    ite_true]
  split_ifs <;> simp_all

/-- Blink reference timestamp after a both-eyes-closed `detect_gesture`
call: it is left at its old value exactly when the call returns
`DOUBLE_BLINK` (the early `return` skips the assignment), and set to
`current_time` otherwise. -/
theorem detect_gesture_both_last (s : TrackerState) (l r t : ℚ)
    (hl : l < s.ear_threshold) (hr : r < s.ear_threshold) :
    (detect_gesture s l r t).2.last_blink_time =
      if t - s.last_blink_time < 0.5 ∧ 2 ≤ s.blink_count + 1 then
        s.last_blink_time
      else t := by
  simp only [detect_gesture, decide_eq_true hl, decide_eq_true hr,
    Bool.and_not_self, Bool.not_true, Bool.and_false, Bool.false_and,
    Bool.and_self, if_false, if_true, Bool.false_eq_true, ite_false,
    ite_true]
  split_ifs <;> simp_all

/-- C3: on every `detect_gesture` call with timestamp `t`, an eye whose
ratio is below `ear_threshold` and whose closure timer was unset before the
call has its timer set to (mark) `t` after the call; an eye whose ratio is
at or above the threshold has its timer unset (`0`) after the call, so a
timer is never left set while the corresponding eye is open in the current
frame. -/
theorem closure_timer_update (s : TrackerState) (l r t : ℚ) :
    ((l < s.ear_threshold ∧ s.left_eye_closed_time = 0) →
      (detect_gesture s l r t).2.left_eye_closed_time = t) ∧
    (¬ l < s.ear_threshold →
      (detect_gesture s l r t).2.left_eye_closed_time = 0) ∧
    ((r < s.ear_threshold ∧ s.right_eye_closed_time = 0) →
      (detect_gesture s l r t).2.right_eye_closed_time = t) ∧
    (¬ r < s.ear_threshold →
      (detect_gesture s l r t).2.right_eye_closed_time = 0) := by
  refine ⟨fun h => ?_, fun h => ?_, fun h => ?_, fun h => ?_⟩
  · simp [detect_gesture_left_timer, h.1, h.2]
  · simp [detect_gesture_left_timer, h]
  · simp [detect_gesture_right_timer, h.1, h.2]
  · simp [detect_gesture_right_timer, h]

/-- Witness for C3 at a concrete input: left eye closed (0.1 < 0.25) with
unset timer, right eye open (0.4), timestamp 2. -/
theorem closure_timer_update_witness :
    ((0.1 : ℚ) < defaultTracker.ear_threshold ∧
      defaultTracker.left_eye_closed_time = 0) ∧
    (detect_gesture defaultTracker 0.1 0.4 2).2.left_eye_closed_time = 2 ∧
    (detect_gesture defaultTracker 0.1 0.4 2).2.right_eye_closed_time = 0 := by
  have hpre : (0.1 : ℚ) < defaultTracker.ear_threshold ∧
      defaultTracker.left_eye_closed_time = 0 := by
    constructor
    · show (0.1 : ℚ) < 0.25; norm_num
    · rfl
  have hopen : ¬ (0.4 : ℚ) < defaultTracker.ear_threshold := by
    show ¬ (0.4 : ℚ) < 0.25; norm_num
  exact ⟨hpre, (closure_timer_update defaultTracker 0.1 0.4 2).1 hpre,
    ((closure_timer_update defaultTracker 0.1 0.4 2).2.2.2) hopen⟩

/-- C8: every `detect_gesture` call returns exactly one of the five
enumeration values (the return type is the enumeration), and the value
`SUSTAINED_GAZE` is never returned, in any state. -/
theorem detect_gesture_taxonomy (s : TrackerState) (l r t : ℚ) :
    ((detect_gesture s l r t).1 = GestureType.NONE ∨
     (detect_gesture s l r t).1 = GestureType.LEFT_WINK ∨
     (detect_gesture s l r t).1 = GestureType.RIGHT_WINK ∨
     (detect_gesture s l r t).1 = GestureType.DOUBLE_BLINK) ∧
    (detect_gesture s l r t).1 ≠ GestureType.SUSTAINED_GAZE := by
  have hns : (detect_gesture s l r t).1 ≠ GestureType.SUSTAINED_GAZE := by
    simp only [detect_gesture]
    split_ifs <;> simp
  refine ⟨?_, hns⟩
  cases h : (detect_gesture s l r t).1 <;> simp_all

/-- Witness for C8 at a concrete input. -/
theorem detect_gesture_taxonomy_witness :
    (detect_gesture defaultTracker 0.4 0.4 1).1 ≠
      GestureType.SUSTAINED_GAZE :=
  (detect_gesture_taxonomy defaultTracker 0.4 0.4 1).2

/-- C9: `reset_metrics` clears both closure timers, the blink reference
timestamp, the blink counter and the gaze history, leaves `ear_threshold`,
`wink_duration` and the stored frame dimensions unchanged, and is
idempotent. -/
theorem reset_metrics_spec (s : TrackerState) :
    (reset_metrics s).left_eye_closed_time = 0 ∧
    (reset_metrics s).right_eye_closed_time = 0 ∧
    (reset_metrics s).last_blink_time = 0 ∧
    (reset_metrics s).blink_count = 0 ∧
    (reset_metrics s).gaze_history = [] ∧
    (reset_metrics s).ear_threshold = s.ear_threshold ∧
    (reset_metrics s).wink_duration = s.wink_duration ∧
    (reset_metrics s).frame_width = s.frame_width ∧
    (reset_metrics s).frame_height = s.frame_height ∧
    reset_metrics (reset_metrics s) = reset_metrics s := by
  refine ⟨rfl, rfl, rfl, rfl, rfl, rfl, rfl, rfl, rfl, rfl⟩

/-- C10: a single sustained both-eyes closure triggers a double blink with
no reopening in between: if a both-eyes-closed call leaves the blink
counter at 1, a second both-eyes-closed call less than 0.5 s after the
recorded reference event returns `DOUBLE_BLINK`. -/
theorem sustained_closure_double_blink (s0 : TrackerState)
    (la ra lb rb ta tb : ℚ)
    (_hla : la < s0.ear_threshold) (_hra : ra < s0.ear_threshold)
    (hlb : lb < (detect_gesture s0 la ra ta).2.ear_threshold)
    (hrb : rb < (detect_gesture s0 la ra ta).2.ear_threshold)
    (hcount : (detect_gesture s0 la ra ta).2.blink_count = 1)
    (hgap : tb - (detect_gesture s0 la ra ta).2.last_blink_time < 0.5) :
    (detect_gesture (detect_gesture s0 la ra ta).2 lb rb tb).1 =
      GestureType.DOUBLE_BLINK := by
  rw [detect_gesture_both_fst _ _ _ _ hlb hrb,
    if_pos ⟨hgap, by rw [hcount]; norm_num⟩]

/-- Witness for C10: both eyes closed (ratio 0.1) at times 1 and 1.3 on a
fresh default tracker. -/
theorem sustained_closure_double_blink_witness :
    (detect_gesture defaultTracker 0.1 0.1 1).2.blink_count = 1 ∧
    (detect_gesture (detect_gesture defaultTracker 0.1 0.1 1).2
      0.1 0.1 1.3).1 = GestureType.DOUBLE_BLINK := by
  have hthr : defaultTracker.ear_threshold = 0.25 := rfl
  have hcl : (0.1 : ℚ) < defaultTracker.ear_threshold := by
    rw [hthr]; norm_num
  have hcount : (detect_gesture defaultTracker 0.1 0.1 1).2.blink_count = 1 := by
    rw [detect_gesture_both_count _ _ _ _ hcl hcl]
    norm_num [defaultTracker, initTracker]
  have hlast :
      (detect_gesture defaultTracker 0.1 0.1 1).2.last_blink_time = 1 := by
    rw [detect_gesture_both_last _ _ _ _ hcl hcl]
    norm_num [defaultTracker, initTracker]
  refine ⟨hcount, sustained_closure_double_blink defaultTracker
    0.1 0.1 0.1 0.1 1 1.3 hcl hcl ?_ ?_ hcount ?_⟩
  · rw [detect_gesture_ear_threshold, hthr]; norm_num
  · rw [detect_gesture_ear_threshold, hthr]; norm_num
  · rw [hlast]; norm_num

/-- C1 counterexample: on a fresh default tracker, a both-eyes-closed call
at time 1 (setting the counter to 1 and the reference to 1) followed by a
both-eyes-closed call at time 1.3 returns `DOUBLE_BLINK`, and after that
second call `last_blink_time` is still 1, not the call's timestamp 1.3:
the early `return` skips the `last_blink_time` assignment. -/
theorem last_blink_time_not_updated_on_double_blink :
    (0.1 : ℚ) < (detect_gesture defaultTracker 0.1 0.1 1).2.ear_threshold ∧
    (detect_gesture (detect_gesture defaultTracker 0.1 0.1 1).2
      0.1 0.1 1.3).1 = GestureType.DOUBLE_BLINK ∧
    (detect_gesture (detect_gesture defaultTracker 0.1 0.1 1).2
      0.1 0.1 1.3).2.last_blink_time = 1 ∧
    (detect_gesture (detect_gesture defaultTracker 0.1 0.1 1).2
      0.1 0.1 1.3).2.last_blink_time < 1.3 := by
  norm_num [detect_gesture, defaultTracker, initTracker, update_left_timer,
    update_right_timer]

/-- C1 amended: after a both-eyes-closed `detect_gesture` call,
`last_blink_time` equals the call's timestamp whenever the call did not
return `DOUBLE_BLINK`; when it returned `DOUBLE_BLINK`, `last_blink_time`
keeps its value from before the call. -/
theorem last_blink_time_both_closed (s : TrackerState) (l r t : ℚ)
    (hl : l < s.ear_threshold) (hr : r < s.ear_threshold) :
    ((detect_gesture s l r t).1 ≠ GestureType.DOUBLE_BLINK →
      (detect_gesture s l r t).2.last_blink_time = t) ∧
    ((detect_gesture s l r t).1 = GestureType.DOUBLE_BLINK →
      (detect_gesture s l r t).2.last_blink_time = s.last_blink_time) := by
  rw [detect_gesture_both_fst _ _ _ _ hl hr,
    detect_gesture_both_last _ _ _ _ hl hr]
  by_cases hc : t - s.last_blink_time < 0.5 ∧ 2 ≤ s.blink_count + 1
  · simp [hc]
  · simp [hc]

/-- Witness for C1 (amended): a both-eyes-closed call on a fresh default
tracker at time 1 does not return `DOUBLE_BLINK`, and sets
`last_blink_time` to 1. -/
theorem last_blink_time_both_closed_witness :
    (0.1 : ℚ) < defaultTracker.ear_threshold ∧
    (detect_gesture defaultTracker 0.1 0.1 1).2.last_blink_time = 1 := by
  have hcl : (0.1 : ℚ) < defaultTracker.ear_threshold := by
    show (0.1 : ℚ) < 0.25; norm_num
  have hfst : (detect_gesture defaultTracker 0.1 0.1 1).1 ≠
      GestureType.DOUBLE_BLINK := by
    rw [detect_gesture_both_fst _ _ _ _ hcl hcl]
    norm_num [defaultTracker, initTracker]
    decide
  exact ⟨hcl,
    (last_blink_time_both_closed defaultTracker 0.1 0.1 1 hcl hcl).1 hfst⟩

/-- C5: on a fresh default tracker, two both-eyes-closed calls 0.3 s apart
make the second call return `DOUBLE_BLINK`; a third both-eyes-closed call
0.3 s after the second does not return `DOUBLE_BLINK` and leaves the blink
counter at 1 (a fresh count). -/
theorem double_blink_sequence (t1 : ℚ) :
    run_gestures defaultTracker
        [(0.1, 0.1, t1), (0.1, 0.1, t1 + 0.3), (0.1, 0.1, t1 + 0.6)] =
      [GestureType.NONE, GestureType.DOUBLE_BLINK, GestureType.NONE] ∧
    (run_state defaultTracker
        [(0.1, 0.1, t1), (0.1, 0.1, t1 + 0.3),
          (0.1, 0.1, t1 + 0.6)]).blink_count = 1 := by
  have hthr0 : defaultTracker.ear_threshold = 0.25 := rfl
  have hcl0 : (0.1 : ℚ) < defaultTracker.ear_threshold := by
    rw [hthr0]; norm_num
  set s1 := (detect_gesture defaultTracker 0.1 0.1 t1).2 with hs1
  have hthr1 : s1.ear_threshold = 0.25 := by
    rw [hs1, detect_gesture_ear_threshold, hthr0]
  have hcl1 : (0.1 : ℚ) < s1.ear_threshold := by rw [hthr1]; norm_num
  have hc1 : ¬ (t1 - defaultTracker.last_blink_time < 0.5 ∧
      2 ≤ defaultTracker.blink_count + 1) := by
    rintro ⟨-, h2⟩
    norm_num [defaultTracker, initTracker] at h2
  have e1 : (detect_gesture defaultTracker 0.1 0.1 t1).1 =
      GestureType.NONE := by
    rw [detect_gesture_both_fst _ _ _ _ hcl0 hcl0, if_neg hc1]
  have hlast1 : s1.last_blink_time = t1 := by
    rw [hs1, detect_gesture_both_last _ _ _ _ hcl0 hcl0, if_neg hc1]
  have hcount1 : s1.blink_count = 1 := by
    rw [hs1, detect_gesture_both_count _ _ _ _ hcl0 hcl0]
    split_ifs with h h2
    · norm_num [defaultTracker, initTracker] at h2
    · norm_num [defaultTracker, initTracker]
    · rfl
  have hc2 : (t1 + 0.3) - s1.last_blink_time < 0.5 ∧
      2 ≤ s1.blink_count + 1 := by
    rw [hlast1, hcount1]
    constructor
    · rw [add_sub_cancel_left]; norm_num
    · norm_num
  have e2 : (detect_gesture s1 0.1 0.1 (t1 + 0.3)).1 =
      GestureType.DOUBLE_BLINK := by
    rw [detect_gesture_both_fst _ _ _ _ hcl1 hcl1, if_pos hc2]
  set s2 := (detect_gesture s1 0.1 0.1 (t1 + 0.3)).2 with hs2
  have hthr2 : s2.ear_threshold = 0.25 := by
    rw [hs2, detect_gesture_ear_threshold, hthr1]
  have hcl2 : (0.1 : ℚ) < s2.ear_threshold := by rw [hthr2]; norm_num
  have hlast2 : s2.last_blink_time = t1 := by
    rw [hs2, detect_gesture_both_last _ _ _ _ hcl1 hcl1, if_pos hc2, hlast1]
  have hgap3 : ¬ ((t1 + 0.6) - s2.last_blink_time < 0.5) := by
    rw [hlast2, add_sub_cancel_left]; norm_num
  have e3 : (detect_gesture s2 0.1 0.1 (t1 + 0.6)).1 = GestureType.NONE := by
    rw [detect_gesture_both_fst _ _ _ _ hcl2 hcl2,
      if_neg (fun hc => hgap3 hc.1)]
  have hcount3 :
      (detect_gesture s2 0.1 0.1 (t1 + 0.6)).2.blink_count = 1 := by
    rw [detect_gesture_both_count _ _ _ _ hcl2 hcl2, if_neg hgap3]
  constructor
  · simp only [run_gestures]
    rw [← hs1, ← hs2, e1, e2, e3]
  · simp only [run_state]
    rw [← hs1, ← hs2]
    exact hcount3

/-- Witness for C5 at the concrete start time 1 (the theorem itself has no
hypotheses; this instantiates its universally quantified start time). -/
theorem double_blink_sequence_witness :
    run_gestures defaultTracker
        [(0.1, 0.1, 1), (0.1, 0.1, 1 + 0.3), (0.1, 0.1, 1 + 0.6)] =
      [GestureType.NONE, GestureType.DOUBLE_BLINK, GestureType.NONE] :=
  (double_blink_sequence 1).1

/-- C4: `calculate_ear` returns exactly 0 whenever the landmark list is
shorter than the highest required index plus one, and whenever the
horizontal distance between the top point (`eye_indices[0]`) and the
right-corner point (`eye_indices[3]`) is zero, regardless of the vertical
distances. -/
theorem calculate_ear_degenerate_zero (landmarks : List (ℤ × ℤ))
    (eye_indices : List ℕ) :
    (landmarks.length < eye_indices.foldr max 0 + 1 →
      calculate_ear landmarks eye_indices = 0) ∧
    (euclid_norm (landmarks.getD (eye_indices.getD 0 0) (0, 0))
        (landmarks.getD (eye_indices.getD 3 0) (0, 0)) = 0 →
      calculate_ear landmarks eye_indices = 0) := by
  constructor
  · intro h
    simp [calculate_ear, h]
  · intro h
    simp only [calculate_ear]
    split_ifs
    · rfl
    · rfl

/-- Witness for C4: an empty landmark list is too short for the standard
six EAR indices, and a landmark list whose top and right-corner points
coincide has horizontal distance 0; both give an EAR of exactly 0. -/
theorem calculate_ear_degenerate_zero_witness :
    (([] : List (ℤ × ℤ)).length <
        [33, 160, 158, 133, 153, 144].foldr max 0 + 1 ∧
      calculate_ear [] [33, 160, 158, 133, 153, 144] = 0) ∧
    (euclid_norm
        ([((1 : ℤ), (1 : ℤ)), (2, 2), (3, 3), (1, 1), (4, 4),
            (5, 5)].getD ([0, 1, 2, 3, 4, 5].getD 0 0) (0, 0))
        ([((1 : ℤ), (1 : ℤ)), (2, 2), (3, 3), (1, 1), (4, 4),
            (5, 5)].getD ([0, 1, 2, 3, 4, 5].getD 3 0) (0, 0)) = 0 ∧
      calculate_ear [((1 : ℤ), (1 : ℤ)), (2, 2), (3, 3), (1, 1), (4, 4),
          (5, 5)] [0, 1, 2, 3, 4, 5] = 0) := by
  have hshort : (([] : List (ℤ × ℤ)).length <
      [33, 160, 158, 133, 153, 144].foldr max 0 + 1) := by decide
  have hnorm : euclid_norm
      ([((1 : ℤ), (1 : ℤ)), (2, 2), (3, 3), (1, 1), (4, 4),
          (5, 5)].getD ([0, 1, 2, 3, 4, 5].getD 0 0) (0, 0))
      ([((1 : ℤ), (1 : ℤ)), (2, 2), (3, 3), (1, 1), (4, 4),
          (5, 5)].getD ([0, 1, 2, 3, 4, 5].getD 3 0) (0, 0)) = 0 := by
    show euclid_norm (1, 1) (1, 1) = 0
    norm_num [euclid_norm]
  exact ⟨⟨hshort, (calculate_ear_degenerate_zero _ _).1 hshort⟩,
    ⟨hnorm, (calculate_ear_degenerate_zero _ _).2 hnorm⟩⟩

/-- C6: `calculate_gaze` performs no clamping: with frame dimensions
100×100 and an iris landmark at pixel (200, 300) — outside the frame — it
returns (2, 3), whose first coordinate exceeds 1.  This contradicts the
function's own docstring ("Normalized gaze coordinates (x, y) in range
[0, 1]") and the claimed range. -/
theorem calculate_gaze_out_of_range :
    calculate_gaze 100 100 [(0, 0), (200, 300)] [0, 1] = (2, 3) ∧
    1 < (calculate_gaze 100 100 [(0, 0), (200, 300)] [0, 1]).1 := by
  have h : calculate_gaze 100 100 [(0, 0), (200, 300)] [0, 1] = (2, 3) := by
    norm_num [calculate_gaze, List.getD]
  refine ⟨h, ?_⟩
  rw [h]
  norm_num

/-- A single `update_gaze_history` step cannot push the history above the
capacity bound. -/
theorem update_gaze_history_length_le (m : ℕ) (h : List (ℚ × ℚ))
    (p : ℚ × ℚ) (hh : h.length ≤ m) :
    (update_gaze_history m h p).length ≤ m := by
  simp only [update_gaze_history]
  split_ifs with hc
  · simp only [List.length_tail, List.length_append, List.length_singleton]
    omega
  · simp only [List.length_append, List.length_singleton]
    simp only [List.length_append, List.length_singleton, gt_iff_lt,
      not_lt] at hc
    omega

/-- Folding `update_gaze_history` over any list of points keeps the
history within the capacity bound. -/
theorem foldl_update_gaze_history_length (m : ℕ) (ps : List (ℚ × ℚ)) :
    ∀ acc : List (ℚ × ℚ), acc.length ≤ m →
      (ps.foldl (update_gaze_history m) acc).length ≤ m := by
  induction ps with
  | nil => intro acc hacc; simpa using hacc
  | cons p ps ih =>
      intro acc hacc
      simpa using ih _ (update_gaze_history_length_le m acc p hacc)

/-- C7: the gaze history never exceeds 30 entries after any sequence of
pushes from the initial empty history; a push onto a full (30-entry)
history drops exactly the oldest entry; and pushing 35 points into an
empty history leaves exactly the last 30, in arrival order. -/
theorem gaze_history_bounded_fifo :
    (∀ ps : List (ℚ × ℚ),
      (ps.foldl (update_gaze_history 30) []).length ≤ 30) ∧
    (∀ (h : List (ℚ × ℚ)) (p : ℚ × ℚ), h.length = 30 →
      update_gaze_history 30 h p = h.tail ++ [p]) ∧
    (((List.range 35).map (fun i => ((i : ℚ), (0 : ℚ)))).foldl
        (update_gaze_history 30) [] =
      ((List.range 35).map (fun i => ((i : ℚ), (0 : ℚ)))).drop 5) := by
  refine ⟨?_, ?_, ?_⟩
  · intro ps
    exact foldl_update_gaze_history_length 30 ps [] (by simp)
  · intro h p hlen
    simp only [update_gaze_history]
    rw [if_pos (by simp [hlen])]
    cases h with
    | nil => simp at hlen
    | cons a h => rfl
  · set_option maxRecDepth 8000 in rfl

/-- Witness for C7: a push onto a concrete 30-entry history drops exactly
the oldest entry. -/
theorem gaze_history_bounded_fifo_witness :
    update_gaze_history 30
        ((List.range 30).map (fun i => ((i : ℚ), (0 : ℚ)))) (99, 0) =
      (((List.range 30).map (fun i => ((i : ℚ), (0 : ℚ)))).tail) ++
        [(99, 0)] :=
  gaze_history_bounded_fifo.2.1 _ (99, 0) (by decide)

/-- The tracker state held throughout a left-eye-only closure that began at
time `t1` on a fresh default tracker: the left timer marks `t1`, everything
else is as constructed. -/
def closedTracker (t1 : ℚ) : TrackerState :=
  { defaultTracker with left_eye_closed_time := t1 }

/-- A both-eyes-open call on a fresh default tracker returns no gesture and
leaves the state unchanged. -/
theorem detect_gesture_open_start (t : ℚ) :
    detect_gesture defaultTracker 0.4 0.4 t =
      (GestureType.NONE, defaultTracker) := by
  norm_num [detect_gesture, update_left_timer, update_right_timer,
    defaultTracker, initTracker]

/-- The first left-eye-closed call (ratio 0.1, right eye 0.4) on a fresh
default tracker at time `t1 > 0` starts the left timer at `t1` and returns
no gesture (the duration at this call is 0, below the wink minimum). -/
theorem detect_gesture_first_closed (t1 : ℚ) (ht1 : 0 < t1) :
    detect_gesture defaultTracker 0.1 0.4 t1 =
      (GestureType.NONE, closedTracker t1) := by
  norm_num [detect_gesture, update_left_timer, update_right_timer,
    closedTracker, defaultTracker, initTracker, ht1, sub_self]

/-- A subsequent left-eye-closed call at time `t` during a closure that
began at `t1 > 0` keeps the state and returns `LEFT_WINK` exactly when the
elapsed duration `t - t1` lies in the configured window `[0.2, 0.5]`. -/
theorem detect_gesture_closed_step (t1 t : ℚ) (ht1 : 0 < t1) :
    detect_gesture (closedTracker t1) 0.1 0.4 t =
      ((if 0.2 ≤ t - t1 ∧ t - t1 ≤ 0.5 then GestureType.LEFT_WINK
        else GestureType.NONE), closedTracker t1) := by
  norm_num [detect_gesture, update_left_timer, update_right_timer,
    closedTracker, defaultTracker, initTracker, ht1, ht1.ne']
  split_ifs <;> rfl

/-- Running a block of left-eye-closed calls during a closure that began at
`t1 > 0` yields, for each call, `LEFT_WINK` exactly when its duration lies
in `[0.2, 0.5]`, and leaves the state unchanged for the rest of the run. -/
theorem run_gestures_closed_run (t1 : ℚ) (ht1 : 0 < t1) (ts : List ℚ)
    (rest : List (ℚ × ℚ × ℚ)) :
    run_gestures (closedTracker t1)
        ((ts.map fun t => ((0.1 : ℚ), (0.4 : ℚ), t)) ++ rest) =
      (ts.map fun t =>
        if 0.2 ≤ t - t1 ∧ t - t1 ≤ 0.5 then GestureType.LEFT_WINK
        else GestureType.NONE) ++
        run_gestures (closedTracker t1) rest := by
  induction ts with
  | nil => simp
  | cons t ts ih =>
      simp only [List.map_cons, List.cons_append, run_gestures]
      rw [detect_gesture_closed_step t1 t ht1]
      dsimp only
      simp only [List.append_eq]
      rw [ih]

/-- A final both-eyes-open call after a left-eye closure yields no
gesture. -/
theorem run_gestures_closed_end (t1 t2 : ℚ) :
    run_gestures (closedTracker t1) [(0.4, 0.4, t2)] =
      [GestureType.NONE] := by
  norm_num [run_gestures, detect_gesture, update_left_timer,
    update_right_timer, closedTracker, defaultTracker, initTracker]

/-- C2 counterexample: a fresh default tracker fed one open frame, then
left-eye-closed frames (ratio 0.1, other eye 0.4) at times 1, 1.25 and
1.3 — spanning 0.3 s — then an open frame, returns `LEFT_WINK` on *two*
calls (durations 0.25 and 0.3 both lie strictly inside [0.2, 0.5], well
clear of the window endpoints, so the same two winks occur under IEEE
double arithmetic), not exactly one. -/
theorem wink_emitted_twice :
    run_gestures defaultTracker
        [(0.4, 0.4, 0.5), (0.1, 0.4, 1), (0.1, 0.4, 1.25), (0.1, 0.4, 1.3),
          (0.4, 0.4, 1.4)] =
      [GestureType.NONE, GestureType.NONE, GestureType.LEFT_WINK,
        GestureType.LEFT_WINK, GestureType.NONE] ∧
    (run_gestures defaultTracker
        [(0.4, 0.4, 0.5), (0.1, 0.4, 1), (0.1, 0.4, 1.25), (0.1, 0.4, 1.3),
          (0.4, 0.4, 1.4)]).count GestureType.LEFT_WINK = 2 := by
  have h : run_gestures defaultTracker
      [(0.4, 0.4, 0.5), (0.1, 0.4, 1), (0.1, 0.4, 1.25), (0.1, 0.4, 1.3),
        (0.4, 0.4, 1.4)] =
      [GestureType.NONE, GestureType.NONE, GestureType.LEFT_WINK,
        GestureType.LEFT_WINK, GestureType.NONE] := by
    norm_num [run_gestures, detect_gesture, update_left_timer,
      update_right_timer, defaultTracker, initTracker]
  refine ⟨h, ?_⟩
  rw [h]
  rfl

/-- C2 amended: for a fresh default tracker fed one open frame, then
left-eye-closed frames (ratio 0.1) at times `t1 :: ts`, then an open
frame, each call returns `LEFT_WINK` exactly when its closure duration
(its timestamp minus `t1`) lies in `[0.2, 0.5]` — on every such call, not
only the first; the wink is returned exactly once only when exactly one
closed frame falls in the window. -/
theorem wink_run_characterization (t0 t1 t2 : ℚ) (ts : List ℚ)
    (ht1 : 0 < t1) :
    run_gestures defaultTracker
        ((0.4, 0.4, t0) ::
          ((t1 :: ts).map fun t => ((0.1 : ℚ), (0.4 : ℚ), t)) ++
          [(0.4, 0.4, t2)]) =
      GestureType.NONE ::
        ((t1 :: ts).map fun t =>
          if 0.2 ≤ t - t1 ∧ t - t1 ≤ 0.5 then GestureType.LEFT_WINK
          else GestureType.NONE) ++ [GestureType.NONE] := by
  simp only [List.map_cons, List.cons_append, run_gestures]
  rw [detect_gesture_open_start t0]
  dsimp only
  rw [detect_gesture_first_closed t1 ht1]
  dsimp only
  simp only [List.append_eq]
  rw [run_gestures_closed_run t1 ht1 ts [(0.4, 0.4, t2)],
    run_gestures_closed_end t1 t2]
  norm_num [sub_self]

/-- Witness for C2 (amended) on the concrete run: open at 0, closed at 1
and 1.3, open at 1.4; the wink fires exactly once, at duration 0.3. -/
theorem wink_run_characterization_witness :
    run_gestures defaultTracker
        ((0.4, 0.4, (0 : ℚ)) ::
          (((1 : ℚ) :: [(1.3 : ℚ)]).map fun t => ((0.1 : ℚ), (0.4 : ℚ), t)) ++
          [(0.4, 0.4, 1.4)]) =
      [GestureType.NONE, GestureType.NONE, GestureType.LEFT_WINK,
        GestureType.NONE] := by
  have h := wink_run_characterization 0 1 1.4 [1.3] (by norm_num)
  rw [h]
  norm_num
